import Mathlib

/-!
Shallow embedding of the FDA bioequivalence guidance scraper
(`src/find_updated_ais.py`, `src/common.py`, `src/download_all_pdfs.py`).

Python dynamic values that can appear in the `RLD or RS Number` field are
modelled by `PyValue`; Python string primitives (`str.split`, `str.strip`,
`int(...)`) are modelled character-list-wise; `datetime.date` is modelled by
`PyDate` together with its constructor validation and lexicographic order;
exceptions are modelled by `Except` / explicit error fields.
-/

/-- A Python value as it can occur in a scraped record field: an `int`,
a `str`, `None`, or some other object (kept by its `str(...)` rendering). -/
inductive PyValue where
  | int (n : Int)
  | str (s : String)
  | pyNone
  | other (repr : String)
deriving DecidableEq, Repr

/-- Python `str(v)`. -/
def pyStr : PyValue → String
  | .int n => toString n
  | .str s => s
  | .pyNone => "None"
  | .other r => r

/-- Auxiliary for `pySplit`: walks the character list, cutting at each
occurrence of the separator (Python `str.split(sep)` keeps empty pieces). -/
def pySplitAux (sep : Char) : List Char → List Char → List String
  | [], acc => [String.mk acc.reverse]
  | c :: cs, acc =>
      if c = sep then String.mk acc.reverse :: pySplitAux sep cs []
      else pySplitAux sep cs (c :: acc)

/-- Python `s.split(sep)` for a one-character separator: split on every
occurrence, retaining empty pieces (`"a  b".split(' ') = ["a","","b"]`). -/
def pySplit (sep : Char) (s : String) : List String :=
  pySplitAux sep s.toList []

/-- Python `s.strip()`: drop leading and trailing whitespace. -/
def pyStrip (s : String) : String :=
  String.mk (((s.toList.dropWhile Char.isWhitespace).reverse.dropWhile
    Char.isWhitespace).reverse)

/-- Digits-only string body to a natural number; `none` when empty or when a
non-digit occurs (the failing cases of Python `int(...)`). -/
def digitsToNat? (l : List Char) : Option Nat :=
  if l = [] then none
  else if l.all Char.isDigit then
    some (l.foldl (fun a c => a * 10 + (c.toNat - '0'.toNat)) 0)
  else none

/-- Python `int(s)` on a string: strip surrounding whitespace, allow one
optional sign, then require a non-empty run of decimal digits; `none` models
the `ValueError` raised otherwise. -/
def pyInt? (s : String) : Option Int :=
  match (pyStrip s).toList with
  | '-' :: ds => (digitsToNat? ds).map (fun n => -(n : Int))
  | '+' :: ds => (digitsToNat? ds).map (fun n => (n : Int))
  | ds => (digitsToNat? ds).map (fun n => (n : Int))

/-- A `datetime.date` value. -/
structure PyDate where
  year : Int
  month : Int
  day : Int
deriving DecidableEq, Repr

/-- Day count of a month, as validated by the `datetime.date` constructor. -/
def daysInMonth (y m : Int) : Int :=
  if m = 2 then (if (y % 4 = 0 ∧ y % 100 ≠ 0) ∨ y % 400 = 0 then 29 else 28)
  else if m = 4 ∨ m = 6 ∨ m = 9 ∨ m = 11 then 30
  else 31

/-- The `datetime.date(year, month, day)` constructor: `none` models the
`ValueError` raised on out-of-range components. -/
def date? (y m d : Int) : Option PyDate :=
  if 1 ≤ y ∧ y ≤ 9999 ∧ 1 ≤ m ∧ m ≤ 12 ∧ 1 ≤ d ∧ d ≤ daysInMonth y m then
    some ⟨y, m, d⟩
  else none

/-- Python `date` comparison `a <= b`: lexicographic on (year, month, day). -/
def dateLe (a b : PyDate) : Bool :=
  if a.year ≠ b.year then decide (a.year < b.year)
  else if a.month ≠ b.month then decide (a.month < b.month)
  else decide (a.day ≤ b.day)

/-- One scraped active-ingredient record, with the three fields the core
reads: `URL`, `RLD or RS Number`, and `Date Recommended` (absent = `None`). -/
structure ActiveIngredient where
  url : String
  rld : PyValue
  dateRecommended : Option String

/-- Python exceptions that the embedded fragments can raise. -/
inductive PyErr where
  | attributeError
  | valueError
  | nameError
deriving DecidableEq, Repr

/-- The `rld_arg_type` tag computed in `ai_is_of_interest`
(`find_updated_ais.py` lines 176-181). -/
def rldArgType : PyValue → String
  | .int _ => "int"
  | .str _ => "str"
  | _ => "other"

/-- The `rld_values` token list computed in `ai_is_of_interest`
(`find_updated_ais.py` lines 183-188): a space-containing string is split on
single spaces with each piece stripped; any other value yields the single
token `str(rld_value)`. -/
def rldTokens : PyValue → List String
  | .str s =>
      if s.toList.contains ' ' then (pySplit ' ' s).map pyStrip
      else [s]
  | v => [pyStr v]

/-- The freshness-date parse inlined in `ai_is_of_interest`
(`find_updated_ais.py` lines 197-199): `None.split` raises AttributeError;
an unpack of a split with other than two pieces raises ValueError; `int(...)`
of a non-numeric piece raises ValueError; `datetime.date(...)` out of range
raises ValueError. The left piece is the month, the right the year, day 1. -/
def parseRecommendedDate : Option String → Except PyErr PyDate
  | none => .error .attributeError
  | some s =>
      match pySplit '/' s with
      | [m, y] =>
          match pyInt? y, pyInt? m with
          | some yi, some mi =>
              match date? yi mi 1 with
              | some d => .ok d
              | none => .error .valueError
          | _, _ => .error .valueError
      | _ => .error .valueError

/-- The freshness gate of `ai_is_of_interest` (lines 197-200): parse the
`MM/YYYY` field and compare the resulting date against the content-current
reference date (`ai_updated_date >= current_content_updated_date`). -/
def is_fresh_or_later (ds : Option String) (current : PyDate) :
    Except PyErr Bool :=
  match parseRecommendedDate ds with
  | .ok d => .ok (dateLe current d)
  | .error e => .error e

/-- `ai_is_of_interest` (`find_updated_ais.py` lines 159-203): tag the raw
RLD field, tokenize it, mark interest when any token occurs in the search
list, return early when not of interest, otherwise evaluate the freshness
gate (which can only re-affirm the already-true interest flag). -/
def ai_is_of_interest (ai : ActiveIngredient) (currentContentUpdatedDate : PyDate)
    (rldSearchNumbers : List String) : Except PyErr (Bool × String) :=
  let rld_arg_type := rldArgType ai.rld
  let rld_values := rldTokens ai.rld
  let isOfInterest := rld_values.any (fun v => rldSearchNumbers.contains v)
  if isOfInterest = false then .ok (isOfInterest, rld_arg_type)
  else
    match is_fresh_or_later ai.dateRecommended currentContentUpdatedDate with
    | .error e => .error e
    | .ok fresh => .ok ((if fresh then true else isOfInterest), rld_arg_type)

/-- The malformation predicate of the spec (§4.2): the `Date Recommended`
field is absent, does not split on `/` into exactly two pieces, or has a
piece that `int(...)` rejects. -/
def malformedDateField : Option String → Bool
  | none => true
  | some s =>
      match pySplit '/' s with
      | [m, y] => (pyInt? m).isNone || (pyInt? y).isNone
      | _ => true

/-- Outcome of one transport-level attempt by the underlying HTTP stack:
a connection failure, a timeout, some other request-level failure, or a
response with a status code and a body. -/
inductive TransportOutcome where
  | connError
  | timeoutError
  | otherError
  | resp (status : Nat) (content : String)

/-- The `requests` exceptions caught in `download_single_pdf`
(`common.py` lines 107-114): `HTTPError`, `ConnectionError`, `Timeout`,
and the generic `RequestException`. -/
inductive RequestsError where
  | httpError (status : Nat)
  | connectionError
  | timeout
  | requestError
deriving DecidableEq, Repr

/-- `Retry(total = 5, backoff_factor = 1)` mounted on the session in
`http_session` (`common.py` line 121). -/
def http_session_max_retries : Nat := 5

/-- The retrying GET of the mounted adapter: attempt `i` consults the
transport; connection failures and timeouts are retried while retries
remain, any response is returned (the `raise_for_status` response hook of
`http_session`, line 127, turns a status of 400 or above into `HTTPError`
without a further attempt). Returns the number of attempts made and the
result. -/
def sessionGetAux (outcomes : Nat → TransportOutcome) :
    Nat → Nat → Nat × Except RequestsError (Nat × String)
  | 0, i =>
    match outcomes i with
    | .resp st c =>
        (i + 1, if 400 ≤ st then .error (.httpError st) else .ok (st, c))
    | .otherError => (i + 1, .error .requestError)
    | .connError => (i + 1, .error .connectionError)
    | .timeoutError => (i + 1, .error .timeout)
  | r + 1, i =>
    match outcomes i with
    | .resp st c =>
        (i + 1, if 400 ≤ st then .error (.httpError st) else .ok (st, c))
    | .otherError => (i + 1, .error .requestError)
    | .connError => sessionGetAux outcomes r (i + 1)
    | .timeoutError => sessionGetAux outcomes r (i + 1)

/-- `http.get(url, timeout=5)` through the session built by `http_session`:
up to 1 initial attempt plus `http_session_max_retries` retries. -/
def sessionGet (outcomes : Nat → TransportOutcome) :
    Nat × Except RequestsError (Nat × String) :=
  sessionGetAux outcomes http_session_max_retries 0

/-- `download_single_pdf` (`common.py` lines 83-114): derive the filename
as the last `/`-separated segment of the URL, perform the retried GET, and
on success write `write_directory/filename`; every caught `requests`
exception is printed and the function returns with no file written.
Returns the transport attempt count and the written (path, content), if
any. -/
def download_single_pdf (url writeDirectory : String)
    (outcomes : Nat → TransportOutcome) : Nat × Option (String × String) :=
  let filename := (pySplit '/' url).getLastD ""
  match sessionGet outcomes with
  | (n, .ok (_, content)) =>
      (n, some (writeDirectory ++ "/" ++ filename, content))
  | (n, .error _) => (n, none)

/-- The `downloaded_rld_pdfs = collections.defaultdict(bool)` ledger:
reading an unseen key yields `false`. -/
def Ledger : Type := PyValue → Bool

/-- A Python dict update `ledger[key] = b`. -/
def setLedger (l : Ledger) (k : PyValue) (b : Bool) : Ledger :=
  fun k2 => if k2 = k then b else l k2

/-- Observable result of one `download_specific_guidance_pdf` call: the
ledger after the call, how many times the retrieval client was invoked,
and the exception the call raised, if any. -/
structure FetchStep where
  ledger : Ledger
  fetchCalls : Nat
  raised : Option PyErr

/-- `download_specific_guidance_pdf` from `common.py` (lines 55-80): keyed
on the raw `RLD or RS Number` value, skip if the ledger already marks it;
otherwise invoke `download_single_pdf` (which absorbs its own errors,
succeed or fail), set the ledger entry to `True`, and then execute
`print('Created {0}/{1} PDF file'.format(write_directory, filename))` —
`filename` is never bound in this function's scope (the binding is in a
commented-out block, lines 70-74), so the print raises `NameError`. -/
def download_specific_guidance_pdf (ai : ActiveIngredient)
    (writeDirectory : String) (downloadedRldPdfs : Ledger)
    (outcomes : Nat → TransportOutcome) : FetchStep :=
  let rldValue := ai.rld
  if downloadedRldPdfs rldValue = false then
    let _saved := download_single_pdf ai.url writeDirectory outcomes
    let ledger2 := setLedger downloadedRldPdfs rldValue true
    { ledger := ledger2, fetchCalls := 1, raised := some .nameError }
  else
    { ledger := downloadedRldPdfs, fetchCalls := 0, raised := none }

/-- Python `'{:02d}'.format(n)` for a non-negative `n`. -/
def pad2 (n : Nat) : String :=
  if n < 10 then "0" ++ toString n else toString n

/-- The directory name `'{}-{:02d}-{:02d}-run-{}'.format(year, month, day,
run_number)` of `create_output_directory`. -/
def dirName (y m d n : Nat) : String :=
  toString y ++ "-" ++ pad2 m ++ "-" ++ pad2 d ++ "-run-" ++ toString n

/-- `create_output_directory` (`common.py` lines 24-51 and
`find_updated_ais.py` lines 82-109): starting at run number 1, keep
incrementing while the candidate directory exists, then create the first
candidate that does not; `isdir` models `os.path.isdir` on the state of
the filesystem at run start, and `h` records that some run number is free
(true of any finite filesystem). `Nat.find h` is the while loop: the least
index whose candidate is free. -/
def create_output_directory (isdir : String → Bool) (y m d : Nat)
    (h : ∃ k, isdir (dirName y m d (k + 1)) = false) : String :=
  dirName y m d (Nat.find h + 1)

/-- How the modelled prefix of `main` (`find_updated_ais.py` lines 26-43)
ends: the missing-argument early return (line 33), the exception raised
when the content-current year or month is `None` (line 39), the
`ValueError` from `datetime.date` on out-of-range parsed components
(line 41), or normal continuation carrying the reference date. -/
inductive MainAbort where
  | usageExit
  | contentCurrentError
  | dateConstructionError
  | proceed (d : PyDate)
deriving Repr

/-- Run-start environment of `main`: the filesystem, today's date, the
CLI argument count (`len(sys.argv)`), and the year/month pair returned by
`get_content_current_year_and_month` (either component may be `None`). -/
structure MainConfig where
  isdir : String → Bool
  todayY : Nat
  todayM : Nat
  todayD : Nat
  argc : Nat
  contentYear : Option Int
  contentMonth : Option Int

/-- The prefix of `main` up to the computation of
`current_updated_date` (`find_updated_ais.py` lines 26-43), in source
order: create the output directory first, then check `len(sys.argv) < 2`,
then check the content-current components. Returns the created directory
name and how the prefix ended. -/
def mainPrefix (cfg : MainConfig)
    (h : ∃ k,
      cfg.isdir (dirName cfg.todayY cfg.todayM cfg.todayD (k + 1)) = false) :
    String × MainAbort :=
  let directoryName :=
    create_output_directory cfg.isdir cfg.todayY cfg.todayM cfg.todayD h
  if cfg.argc < 2 then (directoryName, .usageExit)
  else
    match cfg.contentYear, cfg.contentMonth with
    | some cy, some cm =>
        match date? cy cm 1 with
        | some dd => (directoryName, .proceed dd)
        | none => (directoryName, .dateConstructionError)
    | _, _ => (directoryName, .contentCurrentError)

/-- Concrete record used by the dedup witnesses: raw RLD `"12345"`. -/
def aiEx : ActiveIngredient :=
  { url := "docs/file.pdf", rld := .str "12345", dateRecommended := some "03/2024" }

/-- A ledger that already marks `aiEx`'s raw key. -/
def ledgerMarked : Ledger :=
  setLedger (fun _ => false) (.str "12345") true

/-- The empty run-start ledger (`defaultdict(bool)`). -/
def ledgerEmpty : Ledger := fun _ => false

/-- A transport in which every attempt fails with a connection error. -/
def allConnFail : Nat → TransportOutcome := fun _ => .connError

/-- A transport whose first attempt succeeds with a 200 response. -/
def allOk : Nat → TransportOutcome := fun _ => .resp 200 "pdfbytes"

/-- A filesystem in which only `2024-05-01-run-1` exists. -/
def isdirRun1 : String → Bool := fun s => s == "2024-05-01-run-1"

/-- A run invoked with no CLI argument (`len(sys.argv) = 1`). -/
def cfgUsage : MainConfig :=
  { isdir := isdirRun1, todayY := 2024, todayM := 5, todayD := 1,
    argc := 1, contentYear := none, contentMonth := none }

/-- A run with the argument present but an indeterminate content-current
baseline (`get_content_current_year_and_month` returned a `None` year). -/
def cfgNoBaseline : MainConfig :=
  { isdir := isdirRun1, todayY := 2024, todayM := 5, todayD := 1,
    argc := 2, contentYear := none, contentMonth := some 3 }

/-! Helper lemmas. -/

theorem pySplitAux_ne_nil (sep : Char) (l acc : List Char) :
    pySplitAux sep l acc ≠ [] := by
  induction l generalizing acc with
  | nil => simp [pySplitAux]
  | cons c cs ih =>
    unfold pySplitAux
    split
    · simp
    · exact ih _

theorem pySplit_ne_nil (sep : Char) (s : String) : pySplit sep s ≠ [] :=
  pySplitAux_ne_nil sep s.toList []

theorem parseRecommendedDate_day (ds : Option String) (d : PyDate)
    (h : parseRecommendedDate ds = .ok d) : d.day = 1 := by
  cases ds with
  | none => simp [parseRecommendedDate] at h
  | some s =>
    simp only [parseRecommendedDate] at h
    split at h
    · split at h
      · split at h
        · rename_i yi mi _ _ d' hd'
          unfold date? at hd'
          split at hd'
          · cases hd'
            cases h
            rfl
          · cases hd'
        · cases h
      · cases h
    · cases h

theorem malformed_parse_error (ds : Option String)
    (h : malformedDateField ds = true) :
    ∃ e, parseRecommendedDate ds = .error e := by
  cases ds with
  | none => exact ⟨.attributeError, rfl⟩
  | some s =>
    simp only [malformedDateField] at h
    simp only [parseRecommendedDate]
    cases hl : pySplit '/' s with
    | nil => exact ⟨.valueError, rfl⟩
    | cons m t =>
      rw [hl] at h
      cases t with
      | nil => exact ⟨.valueError, rfl⟩
      | cons y t2 =>
        cases t2 with
        | nil =>
          cases hy : pyInt? y <;> cases hm : pyInt? m <;>
            simp_all
        | cons z t3 => exact ⟨.valueError, rfl⟩

theorem rldTokens_ne_nil (v : PyValue) : rldTokens v ≠ [] := by
  cases v with
  | str s =>
    simp only [rldTokens]
    split
    · simp only [ne_eq, List.map_eq_nil_iff]
      exact pySplit_ne_nil ' ' s
    · simp
  | int n => simp [rldTokens]
  | pyNone => simp [rldTokens]
  | other r => simp [rldTokens]

/-! Claim theorems. -/

/-- C1: whenever some normalized token of the record's RLD field is in the
interest list, and the freshness date parses, `ai_is_of_interest` returns
`is_of_interest = true`; the freshness comparison cannot revoke the match,
whatever date the record carries. -/
theorem token_match_classify (ai : ActiveIngredient) (cur : PyDate)
    (sn : List String)
    (hmatch : (rldTokens ai.rld).any (fun v => sn.contains v) = true)
    (d : PyDate) (hparse : parseRecommendedDate ai.dateRecommended = .ok d) :
    ai_is_of_interest ai cur sn = .ok (true, rldArgType ai.rld) := by
  simp only [ai_is_of_interest, is_fresh_or_later, hmatch, hparse]
  cases hb : dateLe cur d <;> rfl

/-- Witness for C1: the record with tokens `12345 67890` and date
`03/2024` classifies as of interest against the interest list `[12345]`
and reference date 2024-02-01. -/
theorem token_match_classify_witness :
    ai_is_of_interest
        { url := "u", rld := .str "12345 67890", dateRecommended := some "03/2024" }
        ⟨2024, 2, 1⟩ ["12345"] =
      .ok (true, "str") :=
  token_match_classify
    { url := "u", rld := .str "12345 67890", dateRecommended := some "03/2024" }
    ⟨2024, 2, 1⟩ ["12345"] (by decide) ⟨2024, 3, 1⟩ rfl

/-- C6: when no token of the record occurs in the interest list,
`ai_is_of_interest` returns `(false, kind)` without evaluating the
freshness parse, so a malformed or absent date never raises. -/
theorem no_match_classify (ai : ActiveIngredient) (cur : PyDate)
    (sn : List String)
    (hmatch : (rldTokens ai.rld).any (fun v => sn.contains v) = false) :
    ai_is_of_interest ai cur sn = .ok (false, rldArgType ai.rld) := by
  simp only [ai_is_of_interest, hmatch]
  rfl

/-- Witness for C6: a non-matching record with an absent
`Date Recommended` classifies to `(false, str)` and raises nothing. -/
theorem no_match_classify_witness :
    ai_is_of_interest
        { url := "u", rld := .str "99999", dateRecommended := none }
        ⟨2024, 2, 1⟩ ["12345"] =
      .ok (false, "str") :=
  no_match_classify
    { url := "u", rld := .str "99999", dateRecommended := none }
    ⟨2024, 2, 1⟩ ["12345"] (by decide)

/-- C5: a record whose tokens match the interest list but whose
`Date Recommended` field is absent, not `/`-splittable into exactly two
pieces, or has a non-numeric piece makes `ai_is_of_interest` end in an
error, which is the value returned to the caller (the exception
propagates rather than being swallowed). -/
theorem matched_malformed_raises (ai : ActiveIngredient) (cur : PyDate)
    (sn : List String)
    (hmatch : (rldTokens ai.rld).any (fun v => sn.contains v) = true)
    (hmal : malformedDateField ai.dateRecommended = true) :
    ∃ e, ai_is_of_interest ai cur sn = .error e := by
  obtain ⟨e, he⟩ := malformed_parse_error ai.dateRecommended hmal
  refine ⟨e, ?_⟩
  simp only [ai_is_of_interest, is_fresh_or_later, hmatch, he]
  rfl

/-- Witness for C5: a matching record with an absent date makes the
classifier raise. -/
theorem matched_malformed_raises_witness :
    ∃ e,
      ai_is_of_interest
          { url := "u", rld := .str "12345", dateRecommended := none }
          ⟨2024, 2, 1⟩ ["12345"] =
        .error e :=
  matched_malformed_raises
    { url := "u", rld := .str "12345", dateRecommended := none }
    ⟨2024, 2, 1⟩ ["12345"] (by decide) rfl

/-- C8: on a well-formed `MM/YYYY` string (one whose parse succeeds,
yielding date `d`), the freshness gate returns a boolean, and it returns
`true` exactly when the parsed (year, month) is chronologically at or
after the reference (year, month), year compared first, both days being
1. -/
theorem fresh_iff_ge (s : String) (cur d : PyDate) (hday : cur.day = 1)
    (hparse : parseRecommendedDate (some s) = .ok d) :
    (∃ b, is_fresh_or_later (some s) cur = .ok b) ∧
      (is_fresh_or_later (some s) cur = .ok true ↔
        (cur.year < d.year ∨ (cur.year = d.year ∧ cur.month ≤ d.month))) := by
  have hd : d.day = 1 := parseRecommendedDate_day _ _ hparse
  simp only [is_fresh_or_later, hparse]
  refine ⟨⟨dateLe cur d, rfl⟩, ?_⟩
  simp only [Except.ok.injEq]
  unfold dateLe
  rw [hday, hd]
  by_cases h1 : cur.year = d.year <;> by_cases h2 : cur.month = d.month
  all_goals simp [h1, h2]
  all_goals omega

/-- Witness for C8: the three reference evaluations — `01/2024` and
`12/2023` are fresh against (2023, 12) while `11/2023` is not. -/
theorem fresh_iff_ge_witness :
    is_fresh_or_later (some "01/2024") ⟨2023, 12, 1⟩ = .ok true ∧
      is_fresh_or_later (some "11/2023") ⟨2023, 12, 1⟩ = .ok false ∧
      is_fresh_or_later (some "12/2023") ⟨2023, 12, 1⟩ = .ok true :=
  ⟨(fresh_iff_ge "01/2024" ⟨2023, 12, 1⟩ ⟨2024, 1, 1⟩ rfl rfl).2.mpr (by decide),
   rfl,
   (fresh_iff_ge "12/2023" ⟨2023, 12, 1⟩ ⟨2023, 12, 1⟩ rfl rfl).2.mpr (by decide)⟩

/-- C7: normalization is total — every raw RLD value yields a non-empty
token list and one of the three kinds, with the shape the spec gives per
case: an integer gives kind `int` and its decimal rendering as single
token; a space-containing string gives kind `str` and one stripped token
per space-split piece; a space-free string gives kind `str` and itself as
single token; anything else gives kind `other` and its `str(...)`
rendering as single token. -/
theorem normalize_total (v : PyValue) :
    rldTokens v ≠ [] ∧
    (rldArgType v = "int" ∨ rldArgType v = "str" ∨ rldArgType v = "other") ∧
    (∀ n, v = .int n → rldArgType v = "int" ∧ rldTokens v = [toString n]) ∧
    (∀ s, v = .str s → s.toList.contains ' ' = true →
        rldArgType v = "str" ∧ rldTokens v = (pySplit ' ' s).map pyStrip) ∧
    (∀ s, v = .str s → s.toList.contains ' ' = false →
        rldArgType v = "str" ∧ rldTokens v = [s]) ∧
    ((∀ n, v ≠ .int n) → (∀ s, v ≠ .str s) →
        rldArgType v = "other" ∧ rldTokens v = [pyStr v]) := by
  refine ⟨rldTokens_ne_nil v, ?_, ?_, ?_, ?_, ?_⟩
  · cases v with
    | int n => exact Or.inl rfl
    | str s => exact Or.inr (Or.inl rfl)
    | pyNone => exact Or.inr (Or.inr rfl)
    | other r => exact Or.inr (Or.inr rfl)
  · intro n hn
    cases hn
    exact ⟨rfl, rfl⟩
  · intro s hs hsp
    cases hs
    exact ⟨rfl, by simp only [rldTokens, hsp]; rfl⟩
  · intro s hs hsp
    cases hs
    exact ⟨rfl, by simp only [rldTokens, hsp]; rfl⟩
  · intro h1 h2
    cases v with
    | int n => exact absurd rfl (h1 n)
    | str s => exact absurd rfl (h2 s)
    | pyNone => exact ⟨rfl, rfl⟩
    | other r => exact ⟨rfl, rfl⟩

/-- Witness for C7: at the multi-valued string `12345 67890` the
normalizer yields a non-empty token list, kind `str`, and the
stripped space-split tokens. -/
theorem normalize_total_witness :
    rldTokens (.str "12345 67890") ≠ [] ∧
      rldArgType (.str "12345 67890") = "str" ∧
      rldTokens (.str "12345 67890") =
        (pySplit ' ' "12345 67890").map pyStrip :=
  ⟨(normalize_total (.str "12345 67890")).1,
   ((normalize_total (.str "12345 67890")).2.2.2.1 "12345 67890" rfl
     (by decide)).1,
   ((normalize_total (.str "12345 67890")).2.2.2.1 "12345 67890" rfl
     (by decide)).2⟩

theorem sessionGetAux_attempts (outcomes : Nat → TransportOutcome) (r i : Nat) :
    (sessionGetAux outcomes r i).1 ≤ i + r + 1 := by
  induction r generalizing i with
  | zero =>
    cases h : outcomes i <;> simp [sessionGetAux, h]
  | succ r ih =>
    cases h : outcomes i with
    | resp st c => simp [sessionGetAux, h]
    | otherError => simp [sessionGetAux, h]
    | connError =>
      simp only [sessionGetAux, h]
      exact le_trans (ih (i + 1)) (by omega)
    | timeoutError =>
      simp only [sessionGetAux, h]
      exact le_trans (ih (i + 1)) (by omega)

/-- C4: `download_single_pdf` makes at most 6 transport attempts (1
initial plus the 5 retries of `Retry(total=5)`), and whenever the retried
GET ends in a request-level error — HTTP error status, connection
failure, timeout, or other request exception — it returns normally with
no file written; the error is absorbed, never propagated. -/
theorem retrieval_resilient (url wd : String)
    (outcomes : Nat → TransportOutcome) :
    (download_single_pdf url wd outcomes).1 ≤ 6 ∧
      ((∃ e, (sessionGet outcomes).2 = .error e) →
        (download_single_pdf url wd outcomes).2 = none) := by
  rcases hsg : sessionGet outcomes with ⟨n, res⟩
  have hb : n ≤ 6 := by
    have h0 := sessionGetAux_attempts outcomes http_session_max_retries 0
    rw [show sessionGetAux outcomes http_session_max_retries 0 =
      sessionGet outcomes from rfl, hsg] at h0
    simpa [http_session_max_retries] using h0
  cases res with
  | ok v =>
    obtain ⟨st, content⟩ := v
    refine ⟨?_, ?_⟩
    · simp [download_single_pdf, hsg, hb]
    · rintro ⟨e, he⟩
      simp at he
  | error e2 =>
    constructor
    · simp [download_single_pdf, hsg, hb]
    · intro _
      simp [download_single_pdf, hsg]

/-- Witness for C4: against a transport whose every attempt fails with a
connection error, the retrieval makes at most 6 attempts (in fact exactly
6) and returns normally with no file. -/
theorem retrieval_resilient_witness :
    (download_single_pdf "docs/file.pdf" "out" allConnFail).1 ≤ 6 ∧
      (download_single_pdf "docs/file.pdf" "out" allConnFail).2 = none :=
  ⟨(retrieval_resilient "docs/file.pdf" "out" allConnFail).1,
   (retrieval_resilient "docs/file.pdf" "out" allConnFail).2
     ⟨.connectionError, rfl⟩⟩

/-- C3: on a record whose raw RLD key the ledger does not yet mark, the
`common.py` `download_specific_guidance_pdf` performs its one fetch, sets
the ledger entry to true, and then raises `NameError` (its final print
references the never-bound local `filename`), so it never returns
normally on an unseen key. -/
theorem unseen_key_raises (ai : ActiveIngredient) (wd : String) (l : Ledger)
    (o : Nat → TransportOutcome) (h : l ai.rld = false) :
    (download_specific_guidance_pdf ai wd l o).raised = some .nameError ∧
      (download_specific_guidance_pdf ai wd l o).ledger ai.rld = true ∧
      (download_specific_guidance_pdf ai wd l o).fetchCalls = 1 := by
  simp only [download_specific_guidance_pdf, h]
  refine ⟨rfl, ?_, rfl⟩
  simp [setLedger]

/-- Witness for C3: the concrete record `aiEx` against the empty ledger
raises `NameError` after one fetch and after marking the key. -/
theorem unseen_key_raises_witness :
    (download_specific_guidance_pdf aiEx "out" ledgerEmpty allOk).raised =
        some .nameError ∧
      (download_specific_guidance_pdf aiEx "out" ledgerEmpty allOk).ledger
          aiEx.rld = true ∧
      (download_specific_guidance_pdf aiEx "out" ledgerEmpty allOk).fetchCalls
        = 1 :=
  unseen_key_raises aiEx "out" ledgerEmpty allOk rfl

/-- C2 (amended): for two records sharing the same raw RLD key and a
ledger that does not yet mark that key, running
`download_specific_guidance_pdf` on both in sequence performs exactly one
retrieval-client invocation, and the ledger entry for the raw key is true
after the first call, whatever the transport outcomes were (fetch success
or failure). -/
theorem dedup_single_fetch (a b : ActiveIngredient) (wd : String) (l : Ledger)
    (o1 o2 : Nat → TransportOutcome) (hkey : b.rld = a.rld)
    (h : l a.rld = false) :
    (download_specific_guidance_pdf a wd l o1).fetchCalls +
      (download_specific_guidance_pdf b wd
        (download_specific_guidance_pdf a wd l o1).ledger o2).fetchCalls = 1 ∧
      (download_specific_guidance_pdf a wd l o1).ledger a.rld = true := by
  have hstep : download_specific_guidance_pdf a wd l o1 =
      { ledger := setLedger l a.rld true, fetchCalls := 1,
        raised := some .nameError } := by
    simp only [download_specific_guidance_pdf, h]
    rfl
  have hl2 : setLedger l a.rld true b.rld = true := by
    simp [setLedger, hkey]
  rw [hstep]
  constructor
  · simp only [download_specific_guidance_pdf, hl2]
    rfl
  · simp [setLedger]

/-- Witness for C2 (amended): the same record twice, from the empty
ledger, with every transport attempt failing — still exactly one fetch
invocation, and the raw key is marked. -/
theorem dedup_single_fetch_witness :
    (download_specific_guidance_pdf aiEx "out" ledgerEmpty allConnFail).fetchCalls +
      (download_specific_guidance_pdf aiEx "out"
        (download_specific_guidance_pdf aiEx "out" ledgerEmpty
          allConnFail).ledger allConnFail).fetchCalls = 1 ∧
      (download_specific_guidance_pdf aiEx "out" ledgerEmpty
        allConnFail).ledger aiEx.rld = true :=
  dedup_single_fetch aiEx aiEx "out" ledgerEmpty allConnFail allConnFail rfl rfl

/-- Counterexample to C2 as stated: with a ledger that already marks the
raw key `"12345"`, the two sequential calls perform zero fetches, not
exactly one — the claim's quantification over every ledger fails. -/
theorem dedup_counterexample :
    ¬ ((download_specific_guidance_pdf aiEx "out" ledgerMarked allOk).fetchCalls +
        (download_specific_guidance_pdf aiEx "out"
          (download_specific_guidance_pdf aiEx "out" ledgerMarked allOk).ledger
          allOk).fetchCalls = 1) := by
  decide

/-- C9: `create_output_directory` creates `YYYY-MM-DD-run-N` where `N` is
the smallest positive integer whose directory name does not already
exist — every smaller positive run number's directory exists, and the
created name does not, so no existing run directory is reused. -/
theorem create_output_directory_fresh (isdir : String → Bool) (y m d : Nat)
    (h : ∃ k, isdir (dirName y m d (k + 1)) = false) :
    ∃ N, create_output_directory isdir y m d h = dirName y m d N ∧
      1 ≤ N ∧ isdir (dirName y m d N) = false ∧
      ∀ j, 1 ≤ j → j < N → isdir (dirName y m d j) = true := by
  refine ⟨Nat.find h + 1, rfl, by omega, Nat.find_spec h, ?_⟩
  intro j h1 h2
  have hj : j - 1 < Nat.find h := by omega
  have hmin := Nat.find_min h hj
  have hj1 : j - 1 + 1 = j := by omega
  rw [hj1] at hmin
  cases hx : isdir (dirName y m d j) with
  | false => exact absurd hx hmin
  | true => rfl

/-- Some run number is free on the filesystem where only
`2024-05-01-run-1` exists. -/
theorem run1Free : ∃ k, isdirRun1 (dirName 2024 5 1 (k + 1)) = false :=
  ⟨1, by decide⟩

/-- Witness for C9: on a filesystem where `2024-05-01-run-1` already
exists, a run dated 2024-05-01 creates exactly `2024-05-01-run-2`. -/
theorem create_output_directory_fresh_witness :
    (∃ N, create_output_directory isdirRun1 2024 5 1 run1Free =
        dirName 2024 5 1 N ∧
      1 ≤ N ∧ isdirRun1 (dirName 2024 5 1 N) = false ∧
      ∀ j, 1 ≤ j → j < N → isdirRun1 (dirName 2024 5 1 j) = true) ∧
    create_output_directory isdirRun1 2024 5 1 run1Free =
      "2024-05-01-run-2" := by
  refine ⟨create_output_directory_fresh isdirRun1 2024 5 1 run1Free, ?_⟩
  have hf : Nat.find run1Free = 1 := by
    rw [Nat.find_eq_iff]
    refine ⟨by decide, ?_⟩
    intro k hk
    have hk0 : k = 0 := by omega
    subst hk0
    decide
  unfold create_output_directory
  rw [hf]
  decide

/-- C10: the modelled `main` prefix creates the output directory before
the CLI-argument check and before the content-current baseline check, so
a run invoked without the RLD-file argument ends in the usage early
return, and a run whose baseline year or month is `None` ends in the
raised exception, while in either case the returned directory is one that
did not previously exist. -/
theorem main_dir_before_checks (cfg : MainConfig)
    (h : ∃ k,
      cfg.isdir (dirName cfg.todayY cfg.todayM cfg.todayD (k + 1)) = false) :
    cfg.isdir (mainPrefix cfg h).1 = false ∧
      (cfg.argc < 2 → (mainPrefix cfg h).2 = .usageExit) ∧
      (2 ≤ cfg.argc → (cfg.contentYear = none ∨ cfg.contentMonth = none) →
        (mainPrefix cfg h).2 = .contentCurrentError) := by
  have hfst : (mainPrefix cfg h).1 =
      create_output_directory cfg.isdir cfg.todayY cfg.todayM cfg.todayD h := by
    unfold mainPrefix
    split
    · rfl
    · split
      · split
        · rfl
        · rfl
      · rfl
  refine ⟨?_, ?_, ?_⟩
  · rw [hfst]
    exact Nat.find_spec h
  · intro ha
    simp [mainPrefix, ha]
  · intro ha hnone
    unfold mainPrefix
    rw [if_neg (by omega)]
    rcases hnone with hy | hm
    · rw [hy]
    · rw [hm]
      cases cfg.contentYear <;> rfl

/-- Witness for C10: a run with no CLI argument, and a run whose baseline
year is `None`, both still create a directory that did not exist. -/
theorem main_dir_before_checks_witness :
    (cfgUsage.isdir (mainPrefix cfgUsage run1Free).1 = false ∧
      (mainPrefix cfgUsage run1Free).2 = .usageExit) ∧
    (cfgNoBaseline.isdir (mainPrefix cfgNoBaseline run1Free).1 = false ∧
      (mainPrefix cfgNoBaseline run1Free).2 = .contentCurrentError) :=
  ⟨⟨(main_dir_before_checks cfgUsage run1Free).1,
    (main_dir_before_checks cfgUsage run1Free).2.1 (by decide)⟩,
   ⟨(main_dir_before_checks cfgNoBaseline run1Free).1,
    (main_dir_before_checks cfgNoBaseline run1Free).2.2 (by decide)
      (Or.inl rfl)⟩⟩
